import Mathlib

/-!
Verification of the nanojitextra front end (`src/nanojitextra/nanojitextra.cpp`).

We give a shallow embedding of the core data model: the writer pipeline built
by `FunctionBuilderImpl`'s constructor, the builder state (return-kind bitmask,
parameter count, emitted-instruction trace), the per-context fragment registry
(`std::map<std::string, LirasmFragment>`) and the `finalize` protocol.

Modelling conventions:
- the C++ `DEBUG` build flag is an explicit `debug : Bool` parameter (the
  `#ifdef DEBUG` blocks are taken exactly when it is `true`);
- the anonymous union `{ rint; rquad; rdouble; }` of `LirasmFragment` is a
  single storage cell `unionVal : Option Nat` (the three members alias one
  cell; a code address is modelled as a `Nat`); `none` means the cell was
  never written, as are the uninitialised `mReturnType` and `fragptr`;
- external collaborators are parameters: the assembler's outcome is an
  `AsmError` argument to `finalize`, the compiled entry point a `codePtr`
  argument, the platform's `NumSavedRegs` a `Nat` argument to the
  constructor;
- side effects (warnings on `std::cerr`, `std::exit`, the guard append, the
  `asm_.compile` call) are recorded explicitly in the result of `finalize`.
-/

namespace NanojitExtra

/-- The return-kind bit for `reti` (`ReturnType::RT_INT = 1`). -/
def RT_INT : Nat := 1

/-- The return-kind bit for `retq` (`ReturnType::RT_QUAD = 2`). -/
def RT_QUAD : Nat := 2

/-- The return-kind bit for `retd` (`ReturnType::RT_DOUBLE = 4`). -/
def RT_DOUBLE : Nat := 4

/-- The tag stored in `LirasmFragment::mReturnType`. -/
inductive ReturnType where
  | rtInt
  | rtQuad
  | rtDouble
  deriving DecidableEq, Repr

/-- The bitmask bit corresponding to a `ReturnType` tag. -/
def ReturnType.bits : ReturnType → Nat
  | .rtInt => RT_INT
  | .rtQuad => RT_QUAD
  | .rtDouble => RT_DOUBLE

/-- The writer-pipeline stages a `FunctionBuilderImpl` may allocate
(`bufWriter_`, `validateWriter2_`, `verboseWriter_`, `cseFilter_`,
`exprFilter_`, `validateWriter1_`). -/
inductive Stage where
  | bufWriter
  | validateWriter2
  | verboseWriter
  | cseFilter
  | exprFilter
  | validateWriter1
  deriving DecidableEq, Repr

/-- The writer pipeline built by the `FunctionBuilderImpl` constructor
(nanojitextra.cpp lines 344-367), as the list of stages in processing order:
head is the outermost stage (the one an emission call reaches first, the final
value of `lir_`), last is the innermost (`bufWriter_`).  Each
`lir_ = new X(lir_)` line of the source is one cons onto the front.  The
`#ifdef DEBUG` regions are taken when `debug` is true; `verbose` is the parent
context's `verbose_`; `optimize` is the constructor argument. -/
def buildPipeline (debug verbose optimize : Bool) : List Stage :=
  let lir := [Stage.bufWriter]
  let lir := if debug && optimize then Stage.validateWriter2 :: lir else lir
  let lir := if debug && verbose then Stage.verboseWriter :: lir else lir
  let lir := if optimize then Stage.cseFilter :: lir else lir
  let lir := if optimize then Stage.exprFilter :: lir else lir
  let lir := if debug then Stage.validateWriter1 :: lir else lir
  lir

/-- `a` is processed strictly before `b` by the pipeline `p` (both occur in
`p` and `a` is closer to the outer end). -/
def stageBefore (p : List Stage) (a b : Stage) : Prop :=
  a ∈ p ∧ b ∈ p ∧ p.indexOf a < p.indexOf b

instance (p : List Stage) (a b : Stage) : Decidable (stageBefore p a b) := by
  unfold stageBefore
  infer_instance

/-- C4 counterexample.  The claim says that with the optimize flag set the CSE
stage processes each emitted instruction before the expression-simplification
stage.  In the source the constructor wraps `exprFilter_` around `cseFilter_`
(lines 357-363), so an emission call reaches `ExprFilter` first: at
`debug = false`, `verbose = false`, `optimize = true` the pipeline is
`[exprFilter, cseFilter, bufWriter]` and CSE is NOT before ExprFilter. -/
theorem c4_cse_before_expr_counterexample :
    ¬ (stageBefore (buildPipeline false false true) Stage.cseFilter Stage.exprFilter ∧
       stageBefore (buildPipeline false false true) Stage.cseFilter Stage.bufWriter ∧
       stageBefore (buildPipeline false false true) Stage.exprFilter Stage.bufWriter) := by
  decide

/-- C4 amended: for every builder created with the optimize flag set (any
`debug`/`verbose` setting), the pipeline processes each emitted instruction
through the expression-simplification stage BEFORE the CSE stage, and both
before the raw instruction buffer — ExprFilter sees the operands as
originally emitted and CSE consumes ExprFilter's output. -/
theorem c4_expr_before_cse_before_buffer :
    ∀ debug verbose : Bool,
      stageBefore (buildPipeline debug verbose true) Stage.exprFilter Stage.cseFilter ∧
      stageBefore (buildPipeline debug verbose true) Stage.exprFilter Stage.bufWriter ∧
      stageBefore (buildPipeline debug verbose true) Stage.cseFilter Stage.bufWriter := by
  decide

/-- C5 counterexample.  The claim says that with tracing enabled the verbose
stage sits outside the optimizing stages (so it would be processed before CSE
and ExprFilter and report the pre-optimization sequence).  In the source the
optimizing stages wrap the verbose writer (lines 351-363), so at
`debug = true`, `verbose = true`, `optimize = true` the pipeline is
`[validateWriter1, exprFilter, cseFilter, verboseWriter, validateWriter2,
bufWriter]` and the tracing stage is NOT before either optimizing stage. -/
theorem c5_verbose_outside_optimizers_counterexample :
    ¬ (stageBefore (buildPipeline true true true) Stage.verboseWriter Stage.cseFilter ∧
       stageBefore (buildPipeline true true true) Stage.verboseWriter Stage.exprFilter) := by
  decide

/-- C5 amended: the tracing stage is placed INSIDE the optimizing stages:
it is present whenever `debug` and `verbose` hold and is processed before the
raw buffer, and when `optimize` is also set both optimizing stages are
processed before it (and it still precedes the end-of-pipeline validator), so
it observes the post-optimization instruction sequence. -/
theorem c5_verbose_inside_optimizers :
    (∀ optimize : Bool,
        Stage.verboseWriter ∈ buildPipeline true true optimize ∧
        stageBefore (buildPipeline true true optimize) Stage.verboseWriter Stage.bufWriter) ∧
    stageBefore (buildPipeline true true true) Stage.exprFilter Stage.verboseWriter ∧
    stageBefore (buildPipeline true true true) Stage.cseFilter Stage.verboseWriter ∧
    stageBefore (buildPipeline true true true) Stage.verboseWriter Stage.validateWriter2 := by
  decide

/-- C6 counterexample.  The claim says that whenever structural validation is
enabled (a `DEBUG` build) the pipeline contains TWO validator instances.  In
the source `validateWriter2_` is only allocated when `optimize` is also set
(lines 346-349, "don't re-validate if no optimization has taken place"), so at
`debug = true`, `verbose = false`, `optimize = false` the pipeline is
`[validateWriter1, bufWriter]` and the inner validator is absent. -/
theorem c6_two_validators_counterexample :
    Stage.validateWriter2 ∉ buildPipeline true false false := by
  decide

/-- C6 amended: with structural validation enabled (`debug = true`) the outer
validator `validateWriter1` is always the outermost stage; the inner validator
`validateWriter2` is present immediately before the raw buffer exactly when
the optimize flag is also set, and is absent when optimization is off (no
re-validation is needed when no stage transformed the stream). -/
theorem c6_validator_placement :
    (∀ verbose optimize : Bool,
        (buildPipeline true verbose optimize).head? = some Stage.validateWriter1) ∧
    (∀ verbose : Bool,
        (buildPipeline true verbose true).drop ((buildPipeline true verbose true).length - 2) =
          [Stage.validateWriter2, Stage.bufWriter]) ∧
    (∀ verbose : Bool, Stage.validateWriter2 ∉ buildPipeline true verbose false) := by
  decide

/-- The error codes the external assembler (`parent_.asm_.error()`) can
report after `compile`; the closed set handled by `finalize` (lines 432-453). -/
inductive AsmError where
  | None
  | BranchTooFar
  | StackFull
  | UnknownBranch
  deriving DecidableEq, Repr

/-- One registry entry (`class LirasmFragment`, lines 33-42).  The anonymous
union of the three typed entry-point members (`rint`, `rquad`, `rdouble`) is
one storage cell `unionVal`; `mReturnType` is the tag; `fragptr` is the owned
`Fragment*` (modelled as an allocation id).  `none` models a member that was
never written (default-constructed entries leave all three unwritten). -/
structure LirasmFragment where
  unionVal : Option Nat
  mReturnType : Option ReturnType
  fragptr : Option Nat
  deriving DecidableEq, Repr

/-- A default-constructed `LirasmFragment` (what `std::map::operator[]`
inserts for an absent key). -/
def emptyLirasmFragment : LirasmFragment :=
  { unionVal := none, mReturnType := none, fragptr := none }

/-- Lookup in the name-keyed fragment registry
(`std::map<std::string, LirasmFragment>`). -/
def mapFind (m : List (String × LirasmFragment)) (k : String) : Option LirasmFragment :=
  match m with
  | [] => none
  | (k', v) :: rest => if k' = k then some v else mapFind rest k

/-- Insert-or-replace in the fragment registry: the entry for `k` is replaced
when present, appended when absent (other entries untouched). -/
def mapInsert (m : List (String × LirasmFragment)) (k : String) (v : LirasmFragment) :
    List (String × LirasmFragment) :=
  match m with
  | [] => [(k, v)]
  | (k', v') :: rest => if k' = k then (k, v) :: rest else (k', v') :: mapInsert rest k v

/-- `parent_.fragments_[fragName_].fragptr = fragment_` (line 342):
`operator[]` default-constructs the entry when absent, then the `fragptr`
member alone is assigned. -/
def setFragptr (m : List (String × LirasmFragment)) (k : String) (fid : Nat) :
    List (String × LirasmFragment) :=
  mapInsert m k { (mapFind m k).getD emptyLirasmFragment with fragptr := some fid }

/-- The context (`class NanoJitContextImpl`): the `verbose_` flag and the
fragment registry `fragments_`.  `nextFragId`/`liveFrags`/`freedFrags` model
the heap of `Fragment` objects: `new Fragment` draws a fresh id, and an id
moves to `freedFrags` only when some operation `delete`s it (only the context
destructor does, lines 325-330). -/
structure NanoJitContextImpl where
  verbose : Bool
  fragments : List (String × LirasmFragment)
  nextFragId : Nat
  liveFrags : List Nat
  freedFrags : List Nat
  deriving Repr

/-- A fresh context (`NJX_create_context` / the context constructor): empty
registry, no fragments allocated. -/
def NanoJitContextImpl.create (verbose : Bool) : NanoJitContextImpl :=
  { verbose := verbose, fragments := [], nextFragId := 0, liveFrags := [], freedFrags := [] }

/-- The context destructor (lines 325-330): `delete i->second.fragptr` for
every entry currently in the registry. -/
def NanoJitContextImpl.destroy (ctx : NanoJitContextImpl) : NanoJitContextImpl :=
  { ctx with
      freedFrags := ctx.freedFrags ++ ctx.fragments.filterMap (fun kv => kv.2.fragptr),
      fragments := [] }

/-- The LIR opcodes used by the modelled emission operations. -/
inductive Opcode where
  | LIR_start
  | LIR_x
  | LIR_reti
  | LIR_retq
  | LIR_retd
  | LIR_label
  | LIR_j
  | LIR_addi
  deriving DecidableEq, Repr

/-- One emitted LIR instruction, by emission operation and opcode (operand
references are irrelevant to the claims and omitted). -/
inductive Ins where
  | ins0 (op : Opcode)
  | ins1 (op : Opcode)
  | ins2 (op : Opcode)
  | insImmI (i : Int)
  | insImmQ (q : Int)
  | insParam (arg : Nat) (kind : Nat)
  | insBranch (op : Opcode)
  | insGuard (op : Opcode)
  deriving DecidableEq, Repr

/-- The builder state (`class FunctionBuilderImpl`): name, the `Fragment` it
allocated, the optimize flag, its pipeline, the return-kind bitmask
`returnTypeBits_`, the `paramCount_` counter and the trace of instructions
pushed into the pipeline head in emission order. -/
structure FunctionBuilderImpl where
  fragName : String
  fragmentId : Nat
  optimize : Bool
  pipeline : List Stage
  returnTypeBits : Nat
  paramCount : Nat
  emitted : List Ins
  deriving Repr

/-- Observable steps of the builder constructor, in program order. -/
inductive CtorEvent where
  | registerFragment (name : String) (fragId : Nat)
  | buildStage (s : Stage)
  | emitIns (i : Ins)
  deriving DecidableEq, Repr

/-- The `FunctionBuilderImpl` constructor (lines 332-372): allocate a fresh
`Fragment` and store it in the parent registry slot for the name (line 342),
build the writer pipeline inner-to-outer (lines 344-367), zero the bitmask
(line 368), emit `LIR_start` (line 369), then reserve one parameter per
platform-saved register via `insParam(i, 1)` (lines 370-371; `paramCount_`
is not touched by that loop).  Returns the builder, the updated context and
the event trace in program order. -/
def FunctionBuilderImpl.create (parent : NanoJitContextImpl) (fragmentName : String)
    (optimize : Bool) (debug : Bool) (numSavedRegs : Nat) :
    FunctionBuilderImpl × NanoJitContextImpl × List CtorEvent :=
  let fid := parent.nextFragId
  let parent1 : NanoJitContextImpl :=
    { parent with
        nextFragId := parent.nextFragId + 1,
        liveFrags := fid :: parent.liveFrags,
        fragments := setFragptr parent.fragments fragmentName fid }
  let pipeline := buildPipeline debug parent.verbose optimize
  let startIns : Ins := Ins.ins0 Opcode.LIR_start
  let paramInss : List Ins := (List.range numSavedRegs).map (fun i => Ins.insParam i 1)
  let b : FunctionBuilderImpl :=
    { fragName := fragmentName, fragmentId := fid, optimize := optimize,
      pipeline := pipeline, returnTypeBits := 0, paramCount := 0,
      emitted := startIns :: paramInss }
  let events : List CtorEvent :=
    CtorEvent.registerFragment fragmentName fid ::
      (pipeline.reverse.map CtorEvent.buildStage ++
        (CtorEvent.emitIns startIns :: paramInss.map CtorEvent.emitIns))
  (b, parent1, events)

/-- `reti` (lines 383-386): set `RT_INT` in the bitmask, emit `LIR_reti`. -/
def FunctionBuilderImpl.reti (b : FunctionBuilderImpl) : FunctionBuilderImpl :=
  { b with returnTypeBits := b.returnTypeBits ||| RT_INT,
           emitted := b.emitted ++ [Ins.ins1 Opcode.LIR_reti] }

/-- `retd` (lines 388-391): set `RT_DOUBLE` in the bitmask, emit `LIR_retd`. -/
def FunctionBuilderImpl.retd (b : FunctionBuilderImpl) : FunctionBuilderImpl :=
  { b with returnTypeBits := b.returnTypeBits ||| RT_DOUBLE,
           emitted := b.emitted ++ [Ins.ins1 Opcode.LIR_retd] }

/-- `retq` (lines 393-396): set `RT_QUAD` in the bitmask, emit `LIR_retq`. -/
def FunctionBuilderImpl.retq (b : FunctionBuilderImpl) : FunctionBuilderImpl :=
  { b with returnTypeBits := b.returnTypeBits ||| RT_QUAD,
           emitted := b.emitted ++ [Ins.ins1 Opcode.LIR_retq] }

/-- `ret` — the void return (lines 199-201): `return lir_->ins0(LIR_x);`
with no bitmask update. -/
def FunctionBuilderImpl.ret (b : FunctionBuilderImpl) : FunctionBuilderImpl :=
  { b with emitted := b.emitted ++ [Ins.ins0 Opcode.LIR_x] }

/-- `immi` (line 206). -/
def FunctionBuilderImpl.immi (b : FunctionBuilderImpl) (i : Int) : FunctionBuilderImpl :=
  { b with emitted := b.emitted ++ [Ins.insImmI i] }

/-- `immq` (line 211). -/
def FunctionBuilderImpl.immq (b : FunctionBuilderImpl) (q : Int) : FunctionBuilderImpl :=
  { b with emitted := b.emitted ++ [Ins.insImmQ q] }

/-- `insertParameter` (line 231): `insParam(paramCount_++, 0)`. -/
def FunctionBuilderImpl.insertParameter (b : FunctionBuilderImpl) : FunctionBuilderImpl :=
  { b with paramCount := b.paramCount + 1,
           emitted := b.emitted ++ [Ins.insParam b.paramCount 0] }

/-- `addLabel` (line 236): `ins0(LIR_label)`. -/
def FunctionBuilderImpl.addLabel (b : FunctionBuilderImpl) : FunctionBuilderImpl :=
  { b with emitted := b.emitted ++ [Ins.ins0 Opcode.LIR_label] }

/-- `addi` (line 271): `ins2(LIR_addi, lhs, rhs)`. -/
def FunctionBuilderImpl.addi (b : FunctionBuilderImpl) : FunctionBuilderImpl :=
  { b with emitted := b.emitted ++ [Ins.ins2 Opcode.LIR_addi] }

/-- `br` (line 246): `insBranch(LIR_j, NULL, to)`. -/
def FunctionBuilderImpl.br (b : FunctionBuilderImpl) : FunctionBuilderImpl :=
  { b with emitted := b.emitted ++ [Ins.insBranch Opcode.LIR_j] }

/-- How `finalize` leaves the caller: a normal return carrying the returned
pointer (`none` models `nullptr`), the `std::exit(1)` on an assembler error,
or the `NanoAssert(0)` failure a `DEBUG` build hits in the `default:` arm of
the return-type switch. -/
inductive FinalizeOutcome where
  | ret (p : Option Nat)
  | fatalExit (code : Nat)
  | assertAbort
  deriving DecidableEq, Repr

/-- The side effects of one `finalize` call: the resulting context, which
warnings were printed, whether the terminal guard was appended, whether
`asm_.compile` was invoked, and which assembler error category (if any) was
reported before exiting. -/
structure FinalizeEffects where
  ctx : NanoJitContextImpl
  warnedNoReturnType : Bool
  warnedMultipleReturnTypes : Bool
  guardAppended : Bool
  compileInvoked : Bool
  reportedError : Option AsmError
  deriving Repr

/-- The tail of `finalize` past the bitmask check (lines 426-479): append the
terminal guard, invoke the compilation engine; on an assembler error report
the category and `std::exit(1)`; otherwise take `&fragments_[fragName_]`
(default-inserting when absent) and switch on the bitmask, storing the entry
point and tag in the matching arm, the `default:` arm hitting `NanoAssert(0)`
and returning `nullptr`. -/
def finalizeCompileAndStore (b : FunctionBuilderImpl) (eff : FinalizeEffects)
    (asmError : AsmError) (codePtr : Nat) (debug : Bool) :
    FinalizeOutcome × FinalizeEffects :=
  let eff := { eff with guardAppended := true }
  let eff := { eff with compileInvoked := true }
  if asmError ≠ AsmError.None then
    (FinalizeOutcome.fatalExit 1, { eff with reportedError := some asmError })
  else
    let m := eff.ctx.fragments
    let f := (mapFind m b.fragName).getD emptyLirasmFragment
    match b.returnTypeBits with
    | 1 =>
        let f := { f with unionVal := some codePtr, mReturnType := some ReturnType.rtInt }
        (FinalizeOutcome.ret (some codePtr),
         { eff with ctx := { eff.ctx with fragments := mapInsert m b.fragName f } })
    | 2 =>
        let f := { f with unionVal := some codePtr, mReturnType := some ReturnType.rtQuad }
        (FinalizeOutcome.ret (some codePtr),
         { eff with ctx := { eff.ctx with fragments := mapInsert m b.fragName f } })
    | 4 =>
        let f := { f with unionVal := some codePtr, mReturnType := some ReturnType.rtDouble }
        (FinalizeOutcome.ret (some codePtr),
         { eff with ctx := { eff.ctx with fragments := mapInsert m b.fragName f } })
    | _ =>
        let eff := { eff with ctx := { eff.ctx with fragments := mapInsert m b.fragName f } }
        if debug then (FinalizeOutcome.assertAbort, eff) else (FinalizeOutcome.ret none, eff)

/-- `finalize` (lines 414-479).  Bitmask check first: zero warns and
continues; a value that is none of `RT_INT`, `RT_QUAD`, `RT_DOUBLE` warns
about multiple return types and returns `nullptr` with no further effect;
otherwise fall through to guard-append, compile and store.  The assembler's
outcome and the compiled entry point are the external collaborator's inputs. -/
def FunctionBuilderImpl.finalize (b : FunctionBuilderImpl) (ctx : NanoJitContextImpl)
    (asmError : AsmError) (codePtr : Nat) (debug : Bool) :
    FinalizeOutcome × FinalizeEffects :=
  let eff0 : FinalizeEffects :=
    { ctx := ctx, warnedNoReturnType := false, warnedMultipleReturnTypes := false,
      guardAppended := false, compileInvoked := false, reportedError := none }
  if b.returnTypeBits = 0 then
    finalizeCompileAndStore b { eff0 with warnedNoReturnType := true } asmError codePtr debug
  else if b.returnTypeBits ≠ RT_INT ∧ b.returnTypeBits ≠ RT_QUAD ∧ b.returnTypeBits ≠ RT_DOUBLE then
    (FinalizeOutcome.ret none, { eff0 with warnedMultipleReturnTypes := true })
  else
    finalizeCompileAndStore b eff0 asmError codePtr debug

/-- Looking up the key just inserted yields the inserted value. -/
theorem mapFind_mapInsert_self (m : List (String × LirasmFragment)) (k : String)
    (v : LirasmFragment) : mapFind (mapInsert m k v) k = some v := by
  induction m with
  | nil => simp [mapInsert, mapFind]
  | cons hd tl ih =>
    obtain ⟨k', v'⟩ := hd
    by_cases h : k' = k <;> simp [mapInsert, mapFind, h, ih]

/-- Registering a `Fragment` pointer under a name leaves that name's slot
holding the pointer (the rest of the old entry, or a fresh entry, intact). -/
theorem mapFind_setFragptr_self (m : List (String × LirasmFragment)) (k : String)
    (fid : Nat) :
    mapFind (setFragptr m k fid) k =
      some { (mapFind m k).getD emptyLirasmFragment with fragptr := some fid } :=
  mapFind_mapInsert_self m k _

/-- How many of the three return-kind bits (`RT_INT`, `RT_QUAD`, `RT_DOUBLE`)
are set in a bitmask value. -/
def returnKindCount (bits : Nat) : Nat :=
  bits % 2 + bits / 2 % 2 + bits / 4 % 2

/-- C1 (confirmed): when the return-kind bitmask has more than one bit set,
`finalize` reports the multiple-return-types error and returns a null
pointer, with no guard appended, no call into the compilation engine, and
the context (hence the registry slot for the name) left untouched.  The
bound `returnTypeBits < 8` is the bitmask range reachable by or-ing
`RT_INT`, `RT_QUAD`, `RT_DOUBLE` into an initial `0`. -/
theorem c1_multiple_return_kinds_abort (b : FunctionBuilderImpl)
    (ctx : NanoJitContextImpl) (asmError : AsmError) (codePtr : Nat) (debug : Bool)
    (h8 : b.returnTypeBits < 8) (hm : 2 ≤ returnKindCount b.returnTypeBits) :
    b.finalize ctx asmError codePtr debug =
      (FinalizeOutcome.ret none,
       { ctx := ctx, warnedNoReturnType := false, warnedMultipleReturnTypes := true,
         guardAppended := false, compileInvoked := false, reportedError := none }) := by
  have h37 : b.returnTypeBits = 3 ∨ b.returnTypeBits = 5 ∨
      b.returnTypeBits = 6 ∨ b.returnTypeBits = 7 := by
    unfold returnKindCount at hm
    omega
  rcases h37 with h | h | h | h <;>
    simp [FunctionBuilderImpl.finalize, h, RT_INT, RT_QUAD, RT_DOUBLE]

/-- A builder that emitted both an integer return and a double return
(bitmask `RT_INT ||| RT_DOUBLE = 5`). -/
def twoKindBuilder : FunctionBuilderImpl :=
  FunctionBuilderImpl.retd (FunctionBuilderImpl.reti
    (FunctionBuilderImpl.create (NanoJitContextImpl.create false) "f" true false 4).1)

/-- C1 witness: the two-return-kind builder satisfies the hypotheses and
`finalize` on it yields the error outcome. -/
theorem c1_multiple_return_kinds_abort_witness :
    twoKindBuilder.finalize (NanoJitContextImpl.create false) AsmError.None 100 false =
      (FinalizeOutcome.ret none,
       { ctx := NanoJitContextImpl.create false, warnedNoReturnType := false,
         warnedMultipleReturnTypes := true, guardAppended := false,
         compileInvoked := false, reportedError := none }) :=
  c1_multiple_return_kinds_abort twoKindBuilder (NanoJitContextImpl.create false)
    AsmError.None 100 false (by decide) (by decide)

/-- A builder whose only return operation is the void `ret()` (bitmask 0). -/
def voidOnlyBuilder : FunctionBuilderImpl :=
  FunctionBuilderImpl.ret
    (FunctionBuilderImpl.create (NanoJitContextImpl.create false) "g" false false 0).1

/-- The context after constructing `voidOnlyBuilder`. -/
def voidOnlyCtx : NanoJitContextImpl :=
  (FunctionBuilderImpl.create (NanoJitContextImpl.create false) "g" false false 0).2.1

/-- C2 counterexample.  The claim says a function with no typed return still
compiles "producing a void-returning artifact (a usable result rather than a
failure)".  On the zero-bitmask path `finalize` warns and proceeds, but then
falls into the `default:` arm of the return-type switch (lines 473-478) and
returns `nullptr`, storing neither a pointer nor a tag: for the builder whose
only return is `ret()`, a release build's `finalize` yields a null result and
the registry entry for "g" keeps no callable and no return-kind tag. -/
theorem c2_void_artifact_counterexample :
    (voidOnlyBuilder.finalize voidOnlyCtx AsmError.None 77 false).1 =
        FinalizeOutcome.ret none ∧
    ((mapFind (voidOnlyBuilder.finalize voidOnlyCtx AsmError.None 77 false).2.ctx.fragments
        "g").map (fun f => (f.unionVal, f.mReturnType))) = some (none, none) := by
  decide

/-- C2 amended: with a zero return-kind bitmask, `finalize` emits the
non-fatal warning and does proceed — it appends the terminal guard and
invokes the compilation engine — but it produces no usable artifact: it
stores neither pointer nor tag in the registry slot and returns a null
pointer (a `DEBUG` build instead dies on the `NanoAssert(0)` in the switch's
`default:` arm). -/
theorem c2_missing_return_null_result (b : FunctionBuilderImpl)
    (ctx : NanoJitContextImpl) (codePtr : Nat) (debug : Bool)
    (h0 : b.returnTypeBits = 0) :
    (b.finalize ctx AsmError.None codePtr debug).2.warnedNoReturnType = true ∧
    (b.finalize ctx AsmError.None codePtr debug).2.warnedMultipleReturnTypes = false ∧
    (b.finalize ctx AsmError.None codePtr debug).2.guardAppended = true ∧
    (b.finalize ctx AsmError.None codePtr debug).2.compileInvoked = true ∧
    (b.finalize ctx AsmError.None codePtr debug).1 =
      (if debug then FinalizeOutcome.assertAbort else FinalizeOutcome.ret none) ∧
    mapFind (b.finalize ctx AsmError.None codePtr debug).2.ctx.fragments b.fragName =
      some ((mapFind ctx.fragments b.fragName).getD emptyLirasmFragment) := by
  cases debug <;>
    simp [FunctionBuilderImpl.finalize, h0, finalizeCompileAndStore, mapFind_mapInsert_self]

/-- C2 amended witness: the void-only builder satisfies the hypothesis and
exhibits the warn-compile-but-null behaviour. -/
theorem c2_missing_return_null_result_witness :
    (voidOnlyBuilder.finalize voidOnlyCtx AsmError.None 77 false).2.warnedNoReturnType = true ∧
    (voidOnlyBuilder.finalize voidOnlyCtx AsmError.None 77 false).2.warnedMultipleReturnTypes = false ∧
    (voidOnlyBuilder.finalize voidOnlyCtx AsmError.None 77 false).2.guardAppended = true ∧
    (voidOnlyBuilder.finalize voidOnlyCtx AsmError.None 77 false).2.compileInvoked = true ∧
    (voidOnlyBuilder.finalize voidOnlyCtx AsmError.None 77 false).1 =
      (if false then FinalizeOutcome.assertAbort else FinalizeOutcome.ret none) ∧
    mapFind (voidOnlyBuilder.finalize voidOnlyCtx AsmError.None 77 false).2.ctx.fragments
        voidOnlyBuilder.fragName =
      some ((mapFind voidOnlyCtx.fragments voidOnlyBuilder.fragName).getD emptyLirasmFragment) :=
  c2_missing_return_null_result voidOnlyBuilder voidOnlyCtx 77 false (by decide)

/-- C3 (confirmed): whenever `finalize` returns a non-null pointer, the
registry entry under the builder's name carries the return-kind tag whose bit
equals the builder's bitmask, the union cell (the one slot the tag selects)
holds exactly the compiled entry point, and the returned pointer is that
stored entry point. -/
theorem c3_success_populates_matching_slot (b : FunctionBuilderImpl)
    (ctx : NanoJitContextImpl) (asmError : AsmError) (codePtr : Nat) (debug : Bool)
    (p : Nat) (eff : FinalizeEffects)
    (h : b.finalize ctx asmError codePtr debug = (FinalizeOutcome.ret (some p), eff)) :
    ∃ rt : ReturnType,
      rt.bits = b.returnTypeBits ∧
      mapFind eff.ctx.fragments b.fragName =
        some { (mapFind ctx.fragments b.fragName).getD emptyLirasmFragment with
                 unionVal := some p, mReturnType := some rt } ∧
      p = codePtr := by
  by_cases ha : asmError = AsmError.None
  · subst ha
    by_cases h0 : b.returnTypeBits = 0
    · cases debug <;>
        simp [FunctionBuilderImpl.finalize, h0, finalizeCompileAndStore] at h
    · by_cases h1 : b.returnTypeBits = 1
      · simp [FunctionBuilderImpl.finalize, h0, h1, RT_INT, RT_QUAD, RT_DOUBLE,
          finalizeCompileAndStore] at h
        obtain ⟨hp, heff⟩ := h
        subst hp
        refine ⟨ReturnType.rtInt, by simp [ReturnType.bits, RT_INT, h1], ?_, rfl⟩
        rw [← heff]
        simp [mapFind_mapInsert_self]
      · by_cases h2 : b.returnTypeBits = 2
        · simp [FunctionBuilderImpl.finalize, h0, h1, h2, RT_INT, RT_QUAD, RT_DOUBLE,
            finalizeCompileAndStore] at h
          obtain ⟨hp, heff⟩ := h
          subst hp
          refine ⟨ReturnType.rtQuad, by simp [ReturnType.bits, RT_QUAD, h2], ?_, rfl⟩
          rw [← heff]
          simp [mapFind_mapInsert_self]
        · by_cases h4 : b.returnTypeBits = 4
          · simp [FunctionBuilderImpl.finalize, h0, h1, h2, h4, RT_INT, RT_QUAD, RT_DOUBLE,
              finalizeCompileAndStore] at h
            obtain ⟨hp, heff⟩ := h
            subst hp
            refine ⟨ReturnType.rtDouble, by simp [ReturnType.bits, RT_DOUBLE, h4], ?_, rfl⟩
            rw [← heff]
            simp [mapFind_mapInsert_self]
          · simp [FunctionBuilderImpl.finalize, h0, h1, h2, h4, RT_INT, RT_QUAD, RT_DOUBLE,
              finalizeCompileAndStore] at h
  · by_cases h0 : b.returnTypeBits = 0
    · simp [FunctionBuilderImpl.finalize, h0, finalizeCompileAndStore, ha] at h
    · by_cases h1 : b.returnTypeBits = 1
      · simp [FunctionBuilderImpl.finalize, h0, h1, RT_INT, RT_QUAD, RT_DOUBLE,
          finalizeCompileAndStore, ha] at h
      · by_cases h2 : b.returnTypeBits = 2
        · simp [FunctionBuilderImpl.finalize, h0, h1, h2, RT_INT, RT_QUAD, RT_DOUBLE,
            finalizeCompileAndStore, ha] at h
        · by_cases h4 : b.returnTypeBits = 4
          · simp [FunctionBuilderImpl.finalize, h0, h1, h2, h4, RT_INT, RT_QUAD, RT_DOUBLE,
              finalizeCompileAndStore, ha] at h
          · simp [FunctionBuilderImpl.finalize, h0, h1, h2, h4, RT_INT, RT_QUAD, RT_DOUBLE,
              finalizeCompileAndStore, ha] at h

/-- A builder that emitted a single integer return. -/
def intRetBuilder : FunctionBuilderImpl :=
  FunctionBuilderImpl.reti
    (FunctionBuilderImpl.create (NanoJitContextImpl.create false) "h" true false 2).1

/-- The context after constructing `intRetBuilder`. -/
def intRetCtx : NanoJitContextImpl :=
  (FunctionBuilderImpl.create (NanoJitContextImpl.create false) "h" true false 2).2.1

/-- C3 witness: a successful integer-returning finalize exhibits the tagged
slot invariant at entry point 55. -/
theorem c3_success_populates_matching_slot_witness :
    ∃ rt : ReturnType,
      rt.bits = intRetBuilder.returnTypeBits ∧
      mapFind (intRetBuilder.finalize intRetCtx AsmError.None 55 false).2.ctx.fragments
          intRetBuilder.fragName =
        some { (mapFind intRetCtx.fragments intRetBuilder.fragName).getD emptyLirasmFragment with
                 unionVal := some 55, mReturnType := some rt } ∧
      (55 : Nat) = 55 :=
  c3_success_populates_matching_slot intRetBuilder intRetCtx AsmError.None 55 false 55
    (intRetBuilder.finalize intRetCtx AsmError.None 55 false).2 rfl

/-- C7 (confirmed): the builder constructor first installs the
Fragment-in-progress in the parent registry under the builder's name (the
resulting context's slot already carries the new `Fragment` pointer, and the
register event precedes every other constructor event, in particular every
instruction emission), then builds the pipeline stages (inner to outer), then
emits the `LIR_start` marker, then reserves exactly one parameter slot per
platform-saved register. -/
theorem c7_ctor_registers_then_builds_then_starts (parent : NanoJitContextImpl)
    (name : String) (optimize debug : Bool) (numSavedRegs : Nat) :
    (mapFind (FunctionBuilderImpl.create parent name optimize debug numSavedRegs).2.1.fragments
        name).bind (fun f => f.fragptr) =
      some (FunctionBuilderImpl.create parent name optimize debug numSavedRegs).1.fragmentId ∧
    (FunctionBuilderImpl.create parent name optimize debug numSavedRegs).2.2 =
      CtorEvent.registerFragment name
          (FunctionBuilderImpl.create parent name optimize debug numSavedRegs).1.fragmentId ::
        ((buildPipeline debug parent.verbose optimize).reverse.map CtorEvent.buildStage ++
          (CtorEvent.emitIns (Ins.ins0 Opcode.LIR_start) ::
            (List.range numSavedRegs).map (fun i => CtorEvent.emitIns (Ins.insParam i 1)))) := by
  constructor
  · simp [FunctionBuilderImpl.create, mapFind_setFragptr_self]
  · simp [FunctionBuilderImpl.create]

/-- C8 (confirmed): whenever the external assembler reports an error from its
closed set, every `finalize` path that reaches the compile call terminates
the process with a diagnostic naming the error category and never returns to
the caller.  The bitmask hypothesis restricts to the paths on which the
engine is invoked at all (a multi-bit mask aborts earlier, cf. C1). -/
theorem c8_assembler_error_fatal (b : FunctionBuilderImpl) (ctx : NanoJitContextImpl)
    (asmError : AsmError) (codePtr : Nat) (debug : Bool)
    (herr : asmError ≠ AsmError.None)
    (hbits : b.returnTypeBits = 0 ∨ b.returnTypeBits = RT_INT ∨
             b.returnTypeBits = RT_QUAD ∨ b.returnTypeBits = RT_DOUBLE) :
    (b.finalize ctx asmError codePtr debug).1 = FinalizeOutcome.fatalExit 1 ∧
    (b.finalize ctx asmError codePtr debug).2.compileInvoked = true ∧
    (b.finalize ctx asmError codePtr debug).2.reportedError = some asmError := by
  rcases hbits with h | h | h | h <;>
    simp [FunctionBuilderImpl.finalize, finalizeCompileAndStore, h, herr,
      RT_INT, RT_QUAD, RT_DOUBLE]

/-- C8 witness: the integer-returning builder hits `BranchTooFar` and the
process exits with the category reported. -/
theorem c8_assembler_error_fatal_witness :
    (intRetBuilder.finalize intRetCtx AsmError.BranchTooFar 0 false).1 =
        FinalizeOutcome.fatalExit 1 ∧
    (intRetBuilder.finalize intRetCtx AsmError.BranchTooFar 0 false).2.compileInvoked = true ∧
    (intRetBuilder.finalize intRetCtx AsmError.BranchTooFar 0 false).2.reportedError =
        some AsmError.BranchTooFar :=
  c8_assembler_error_fatal intRetBuilder intRetCtx AsmError.BranchTooFar 0 false
    (by decide) (by decide)

/-- C9 (confirmed): constructing a new builder under a name already present
in the registry and finalizing it successfully overwrites the entry — lookup
under the name afterwards yields the new compiled artifact (new entry point,
new tag, new `Fragment` pointer) — while the previous entry's `Fragment` is
never freed by the overwrite (it stays live, and nothing is added to the
freed set, until the context is destroyed). -/
theorem c9_name_reuse_overwrites_without_freeing (ctx : NanoJitContextImpl)
    (name : String) (optimize debug : Bool) (numSavedRegs codePtr oldId : Nat)
    (_hold : (mapFind ctx.fragments name).bind (fun f => f.fragptr) = some oldId)
    (hlt : oldId < ctx.nextFragId)
    (hlive : oldId ∈ ctx.liveFrags)
    (hfree : oldId ∉ ctx.freedFrags) :
    ((FunctionBuilderImpl.reti
        (FunctionBuilderImpl.create ctx name optimize debug numSavedRegs).1).finalize
        (FunctionBuilderImpl.create ctx name optimize debug numSavedRegs).2.1
        AsmError.None codePtr debug).1 = FinalizeOutcome.ret (some codePtr) ∧
    mapFind ((FunctionBuilderImpl.reti
        (FunctionBuilderImpl.create ctx name optimize debug numSavedRegs).1).finalize
        (FunctionBuilderImpl.create ctx name optimize debug numSavedRegs).2.1
        AsmError.None codePtr debug).2.ctx.fragments name =
      some { unionVal := some codePtr, mReturnType := some ReturnType.rtInt,
             fragptr := some (FunctionBuilderImpl.create ctx name optimize debug
                 numSavedRegs).1.fragmentId } ∧
    (FunctionBuilderImpl.create ctx name optimize debug numSavedRegs).1.fragmentId ≠ oldId ∧
    oldId ∈ ((FunctionBuilderImpl.reti
        (FunctionBuilderImpl.create ctx name optimize debug numSavedRegs).1).finalize
        (FunctionBuilderImpl.create ctx name optimize debug numSavedRegs).2.1
        AsmError.None codePtr debug).2.ctx.liveFrags ∧
    oldId ∉ ((FunctionBuilderImpl.reti
        (FunctionBuilderImpl.create ctx name optimize debug numSavedRegs).1).finalize
        (FunctionBuilderImpl.create ctx name optimize debug numSavedRegs).2.1
        AsmError.None codePtr debug).2.ctx.freedFrags := by
  refine ⟨?_, ?_, ?_, ?_, ?_⟩
  · simp [FunctionBuilderImpl.create, FunctionBuilderImpl.reti, FunctionBuilderImpl.finalize,
      finalizeCompileAndStore, RT_INT, RT_QUAD, RT_DOUBLE]
  · simp [FunctionBuilderImpl.create, FunctionBuilderImpl.reti, FunctionBuilderImpl.finalize,
      finalizeCompileAndStore, RT_INT, RT_QUAD, RT_DOUBLE, setFragptr,
      mapFind_mapInsert_self]
  · have : (FunctionBuilderImpl.create ctx name optimize debug numSavedRegs).1.fragmentId =
        ctx.nextFragId := by simp [FunctionBuilderImpl.create]
    omega
  · simp [FunctionBuilderImpl.create, FunctionBuilderImpl.reti, FunctionBuilderImpl.finalize,
      finalizeCompileAndStore, RT_INT, RT_QUAD, RT_DOUBLE]
    exact Or.inr hlive
  · simp [FunctionBuilderImpl.create, FunctionBuilderImpl.reti, FunctionBuilderImpl.finalize,
      finalizeCompileAndStore, RT_INT, RT_QUAD, RT_DOUBLE]
    exact hfree

/-- A context that already holds a successfully finalized function named
"f2" (entry point 11, integer return, `Fragment` id 0). -/
def c9BaseCtx : NanoJitContextImpl :=
  ((FunctionBuilderImpl.reti
      (FunctionBuilderImpl.create (NanoJitContextImpl.create false) "f2" false false 1).1).finalize
      (FunctionBuilderImpl.create (NanoJitContextImpl.create false) "f2" false false 1).2.1
      AsmError.None 11 false).2.ctx

/-- C9 witness: re-registering "f2" in `c9BaseCtx` (old `Fragment` id 0)
replaces the lookup result with the new artifact and frees nothing. -/
theorem c9_name_reuse_overwrites_without_freeing_witness :
    ((FunctionBuilderImpl.reti
        (FunctionBuilderImpl.create c9BaseCtx "f2" false false 1).1).finalize
        (FunctionBuilderImpl.create c9BaseCtx "f2" false false 1).2.1
        AsmError.None 22 false).1 = FinalizeOutcome.ret (some 22) ∧
    mapFind ((FunctionBuilderImpl.reti
        (FunctionBuilderImpl.create c9BaseCtx "f2" false false 1).1).finalize
        (FunctionBuilderImpl.create c9BaseCtx "f2" false false 1).2.1
        AsmError.None 22 false).2.ctx.fragments "f2" =
      some { unionVal := some 22, mReturnType := some ReturnType.rtInt,
             fragptr := some (FunctionBuilderImpl.create c9BaseCtx "f2" false false
                 1).1.fragmentId } ∧
    (FunctionBuilderImpl.create c9BaseCtx "f2" false false 1).1.fragmentId ≠ 0 ∧
    (0 : Nat) ∈ ((FunctionBuilderImpl.reti
        (FunctionBuilderImpl.create c9BaseCtx "f2" false false 1).1).finalize
        (FunctionBuilderImpl.create c9BaseCtx "f2" false false 1).2.1
        AsmError.None 22 false).2.ctx.liveFrags ∧
    (0 : Nat) ∉ ((FunctionBuilderImpl.reti
        (FunctionBuilderImpl.create c9BaseCtx "f2" false false 1).1).finalize
        (FunctionBuilderImpl.create c9BaseCtx "f2" false false 1).2.1
        AsmError.None 22 false).2.ctx.freedFrags :=
  c9_name_reuse_overwrites_without_freeing c9BaseCtx "f2" false false 1 22 0
    (by decide) (by decide) (by decide) (by decide)

/-- The modelled emission operations a caller can perform between
construction and `finalize`, closed over the builder methods above. -/
inductive BuilderOp where
  | bopRet
  | bopReti
  | bopRetq
  | bopRetd
  | bopImmi (i : Int)
  | bopImmq (q : Int)
  | bopInsertParameter
  | bopAddLabel
  | bopAddi
  | bopBr
  deriving DecidableEq, Repr

/-- Dispatch one emission operation to the corresponding builder method. -/
def applyOp (b : FunctionBuilderImpl) : BuilderOp → FunctionBuilderImpl
  | .bopRet => b.ret
  | .bopReti => b.reti
  | .bopRetq => b.retq
  | .bopRetd => b.retd
  | .bopImmi i => b.immi i
  | .bopImmq q => b.immq q
  | .bopInsertParameter => b.insertParameter
  | .bopAddLabel => b.addLabel
  | .bopAddi => b.addi
  | .bopBr => b.br

/-- The three typed return operations (`reti`, `retq`, `retd`) — the only
ones that record a bit in the return-kind bitmask. -/
def isTypedReturn : BuilderOp → Bool
  | .bopReti => true
  | .bopRetq => true
  | .bopRetd => true
  | _ => false

/-- Any operation other than a typed return leaves the bitmask unchanged. -/
theorem applyOp_bits_of_not_typed (b : FunctionBuilderImpl) (op : BuilderOp)
    (h : isTypedReturn op = false) :
    (applyOp b op).returnTypeBits = b.returnTypeBits := by
  cases op <;> simp_all [applyOp, isTypedReturn, FunctionBuilderImpl.ret,
    FunctionBuilderImpl.immi, FunctionBuilderImpl.immq,
    FunctionBuilderImpl.insertParameter, FunctionBuilderImpl.addLabel,
    FunctionBuilderImpl.addi, FunctionBuilderImpl.br]

/-- A sequence of operations with no typed return leaves the bitmask where
it started. -/
theorem foldl_applyOp_bits (ops : List BuilderOp) (b : FunctionBuilderImpl)
    (h : ∀ op ∈ ops, isTypedReturn op = false) :
    (ops.foldl applyOp b).returnTypeBits = b.returnTypeBits := by
  induction ops generalizing b with
  | nil => rfl
  | cons op rest ih =>
    simp only [List.foldl_cons]
    rw [ih _ (fun o ho => h o (List.mem_cons_of_mem _ ho))]
    exact applyOp_bits_of_not_typed b op (h op (List.mem_cons_self _ _))

/-- A zero bitmask at finalize time produces the missing-return warning and
not the multiple-return-types one, on every assembler outcome. -/
theorem finalize_warns_no_return_of_bits_zero (b : FunctionBuilderImpl)
    (ctx : NanoJitContextImpl) (asmError : AsmError) (codePtr : Nat) (debug : Bool)
    (h0 : b.returnTypeBits = 0) :
    (b.finalize ctx asmError codePtr debug).2.warnedNoReturnType = true ∧
    (b.finalize ctx asmError codePtr debug).2.warnedMultipleReturnTypes = false := by
  by_cases ha : asmError = AsmError.None
  · subst ha
    cases debug <;> simp [FunctionBuilderImpl.finalize, h0, finalizeCompileAndStore]
  · simp [FunctionBuilderImpl.finalize, h0, finalizeCompileAndStore, ha]

/-- C10 (confirmed): the void return `ret()` emits `LIR_x` without touching
the return-kind bitmask, while `reti`, `retq`, `retd` each or their bit in;
consequently a function built from the constructor by any operation sequence
containing no typed return reaches `finalize` with a zero bitmask and takes
the no-return-type warning path (not a distinct void return kind, and not
the multiple-return-types error). -/
theorem c10_void_return_leaves_bitmask_unchanged (b : FunctionBuilderImpl)
    (ops : List BuilderOp) (parent : NanoJitContextImpl) (name : String)
    (optimize debug : Bool) (numSavedRegs : Nat) (asmError : AsmError) (codePtr : Nat)
    (hops : ∀ op ∈ ops, isTypedReturn op = false) :
    (FunctionBuilderImpl.ret b).returnTypeBits = b.returnTypeBits ∧
    (FunctionBuilderImpl.ret b).emitted = b.emitted ++ [Ins.ins0 Opcode.LIR_x] ∧
    (FunctionBuilderImpl.reti b).returnTypeBits = b.returnTypeBits ||| RT_INT ∧
    (FunctionBuilderImpl.retq b).returnTypeBits = b.returnTypeBits ||| RT_QUAD ∧
    (FunctionBuilderImpl.retd b).returnTypeBits = b.returnTypeBits ||| RT_DOUBLE ∧
    (ops.foldl applyOp
        (FunctionBuilderImpl.create parent name optimize debug numSavedRegs).1).returnTypeBits
      = 0 ∧
    ((ops.foldl applyOp
        (FunctionBuilderImpl.create parent name optimize debug numSavedRegs).1).finalize
        (FunctionBuilderImpl.create parent name optimize debug numSavedRegs).2.1
        asmError codePtr debug).2.warnedNoReturnType = true ∧
    ((ops.foldl applyOp
        (FunctionBuilderImpl.create parent name optimize debug numSavedRegs).1).finalize
        (FunctionBuilderImpl.create parent name optimize debug numSavedRegs).2.1
        asmError codePtr debug).2.warnedMultipleReturnTypes = false := by
  have hzero : (ops.foldl applyOp
      (FunctionBuilderImpl.create parent name optimize debug numSavedRegs).1).returnTypeBits
      = 0 := by
    rw [foldl_applyOp_bits ops _ hops]
    simp [FunctionBuilderImpl.create]
  refine ⟨rfl, rfl, rfl, rfl, rfl, hzero, ?_, ?_⟩
  · exact (finalize_warns_no_return_of_bits_zero _ _ asmError codePtr debug hzero).1
  · exact (finalize_warns_no_return_of_bits_zero _ _ asmError codePtr debug hzero).2

/-- C10 witness: the operation list `[immi 1, ret]` contains no typed return;
the resulting function takes the warning path at `finalize`. -/
theorem c10_void_return_leaves_bitmask_unchanged_witness :
    (FunctionBuilderImpl.ret voidOnlyBuilder).returnTypeBits =
        voidOnlyBuilder.returnTypeBits ∧
    (FunctionBuilderImpl.ret voidOnlyBuilder).emitted =
        voidOnlyBuilder.emitted ++ [Ins.ins0 Opcode.LIR_x] ∧
    (FunctionBuilderImpl.reti voidOnlyBuilder).returnTypeBits =
        voidOnlyBuilder.returnTypeBits ||| RT_INT ∧
    (FunctionBuilderImpl.retq voidOnlyBuilder).returnTypeBits =
        voidOnlyBuilder.returnTypeBits ||| RT_QUAD ∧
    (FunctionBuilderImpl.retd voidOnlyBuilder).returnTypeBits =
        voidOnlyBuilder.returnTypeBits ||| RT_DOUBLE ∧
    ([BuilderOp.bopImmi 1, BuilderOp.bopRet].foldl applyOp
        (FunctionBuilderImpl.create (NanoJitContextImpl.create false) "v" false false
            2).1).returnTypeBits = 0 ∧
    (([BuilderOp.bopImmi 1, BuilderOp.bopRet].foldl applyOp
        (FunctionBuilderImpl.create (NanoJitContextImpl.create false) "v" false false
            2).1).finalize
        (FunctionBuilderImpl.create (NanoJitContextImpl.create false) "v" false false 2).2.1
        AsmError.None 5 false).2.warnedNoReturnType = true ∧
    (([BuilderOp.bopImmi 1, BuilderOp.bopRet].foldl applyOp
        (FunctionBuilderImpl.create (NanoJitContextImpl.create false) "v" false false
            2).1).finalize
        (FunctionBuilderImpl.create (NanoJitContextImpl.create false) "v" false false 2).2.1
        AsmError.None 5 false).2.warnedMultipleReturnTypes = false :=
  c10_void_return_leaves_bitmask_unchanged voidOnlyBuilder
    [BuilderOp.bopImmi 1, BuilderOp.bopRet] (NanoJitContextImpl.create false) "v"
    false false 2 AsmError.None 5 (by decide)

end NanojitExtra
